import Mathlib

/-!
Verification of `ubi-utils/src/ubiattach.c` (mtd-utils).

The program is a thin command-line wrapper: it parses options with
`getopt_long`, opens the UBI control interface through libubi, issues one
attach request, queries the new device's info and prints it.

Shallow embedding conventions:

* `getopt_long` is libc, external to this repository.  `parse_opt` is
  therefore modelled over the stream of option events that `getopt_long`
  yields (`OptEv`), together with the list of non-option arguments that GNU
  `getopt` permutes to the end of `argv` (`nonOpts`); after the loop,
  `optind == argc` holds iff `nonOpts` is empty, and `optind != argc - 1`
  holds iff `nonOpts` has length other than one.
* `strtoul(s, &endp, 0)` (libc) is modelled by `strtoul0`, returning the
  unsigned-long value and the number of characters consumed (`endPos`);
  `endp == optarg` corresponds to `endPos = 0` (strtoul resets `endp` to the
  start when no digits are found), and `*endp == '\0'` corresponds to
  `endPos = length` (argv strings carry no interior NUL).
* The assignment of the `unsigned long` result to the `int` fields of
  `struct args` wraps modulo 2^32 (`wrap32`), as gcc does.
* libubi (`libubi_open`, `ubi_get_info`, `ubi_attach_mtd`,
  `ubi_get_dev_info1`, `libubi_close`) is the repository's external control
  interface; it is modelled as an opaque environment `LibubiEnv` saying
  which calls succeed and with what results.  `ubi_attach_mtd` may update
  `req.dev_num` (when the number is auto-assigned), so the environment's
  `attach` returns the value of `req.dev_num` after a successful call.
* `main` is modelled by `mainRun`, returning the process exit status
  together with the trace of externally visible events (`Ev`): libubi
  calls, `errmsg` reports, and the `printf`/`ubiutils_print_bytes` output
  statements.  `exit(code)` inside `parse_opt` terminates the process, so
  `mainRun` returns `(code, [])` there.
-/

namespace Ubiattach

/-- `ULONG_MAX` on the 64-bit targets mtd-utils builds for. -/
def ULONG_MAX : Nat := 2 ^ 64 - 1

/-- `UBI_DEV_NUM_AUTO` from libubi.h (external header of this repository):
the device-number value asking the kernel to pick a number. -/
def UBI_DEV_NUM_AUTO : Int := -1

/-- `isspace` for the characters strtoul skips. -/
def isSpaceCh (c : Char) : Bool :=
  c = ' ' || c = '\t' || c = '\n' || c = '\x0b' || c = '\x0c' || c = '\r'

/-- Decimal digit value, if any (code points 48-57 are \'0\'-\'9\'). -/
def decDigit (c : Char) : Option Nat :=
  let n := c.toNat
  if 48 ≤ n && n ≤ 57 then some (n - 48) else none

/-- Octal digit value, if any (code points 48-55 are \'0\'-\'7\'). -/
def octDigit (c : Char) : Option Nat :=
  let n := c.toNat
  if 48 ≤ n && n ≤ 55 then some (n - 48) else none

/-- Hexadecimal digit value, if any: \'0\'-\'9\' (48-57), \'a\'-\'f\'
(97-102), \'A\'-\'F\' (65-70). -/
def hexDigit (c : Char) : Option Nat :=
  let n := c.toNat
  if 48 ≤ n && n ≤ 57 then some (n - 48)
  else if 97 ≤ n && n ≤ 102 then some (n - 87)
  else if 65 ≤ n && n ≤ 70 then some (n - 55)
  else none

/-- Accumulate a maximal run of digits (digit values given by `dv`) in the
given base, starting from accumulator `acc`; returns the exact mathematical
value together with the number of characters consumed. -/
def digitsAcc (base : Nat) (dv : Char → Option Nat) : List Char → Nat → Nat × Nat
  | [], acc => (acc, 0)
  | c :: cs, acc =>
    match dv c with
    | none => (acc, 0)
    | some d =>
      let p := digitsAcc base dv cs (acc * base + d)
      (p.1, p.2 + 1)

/-- strtoul's range handling: a value whose magnitude exceeds `ULONG_MAX`
yields `ULONG_MAX`; otherwise a '-' sign negates in unsigned arithmetic. -/
def ulClamp (neg : Bool) (v : Nat) : Nat :=
  if ULONG_MAX < v then ULONG_MAX
  else if neg then (2 ^ 64 - v) % 2 ^ 64 else v

/-- Digit part of `strtoul(s, &endp, 0)` after whitespace and sign: base
detection (`0x`/`0X` prefix for hex, leading `0` for octal, else decimal),
value and total characters consumed.  `pre` counts the whitespace and sign
characters already consumed; a result `endPos = 0` means no digits were
found and strtoul left `endp` at the start of the string. -/
def strtoulCore (neg : Bool) (pre : Nat) : List Char → Nat × Nat
  | '0' :: x :: r =>
    if x = 'x' || x = 'X' then
      match digitsAcc 16 hexDigit r 0 with
      | (_, 0) => (0, pre + 1)
      | (v, n) => (ulClamp neg v, pre + 2 + n)
    else
      let p := digitsAcc 8 octDigit (x :: r) 0
      (ulClamp neg p.1, pre + 1 + p.2)
  | ['0'] => (ulClamp neg 0, pre + 1)
  | s =>
    let p := digitsAcc 10 decDigit s 0
    if p.2 = 0 then (0, 0) else (ulClamp neg p.1, pre + p.2)

/-- `strtoul(s, &endp, 0)`: returns `(value, endPos)` where `endPos` is the
index `endp - s` (0 when no conversion was performed). -/
def strtoul0 (s : List Char) : Nat × Nat :=
  let ws := (s.takeWhile isSpaceCh).length
  match s.drop ws with
  | '-' :: r => strtoulCore true (ws + 1) r
  | '+' :: r => strtoulCore false (ws + 1) r
  | r => strtoulCore false ws r

/-- Conversion of an `unsigned long` value to a C `int` (gcc: wrap modulo
2^32, two's complement). -/
def wrap32 (v : Nat) : Int :=
  let m : Nat := v % 2 ^ 32
  if m < 2 ^ 31 then (m : Int) else (m : Int) - 2 ^ 32

/-- `struct args` of ubiattach.c. -/
structure Args where
  devn : Int
  mtdn : Int
  vidoffs : Int
  node : Option String
deriving DecidableEq, Repr

/-- The initialiser of the global `myargs`. -/
def myargsInit : Args :=
  { devn := UBI_DEV_NUM_AUTO, mtdn := -1, vidoffs := 0, node := none }

/-- One value returned by `getopt_long` in the `parse_opt` loop, with its
`optarg` where the option takes an argument: `-d`, `-m`, `-o`, `-h`, `-V`,
the `':'` key (missing parameter) and any other key (the `default` branch,
e.g. an unrecognised option). -/
inductive OptEv where
  | d (optarg : String)
  | m (optarg : String)
  | o (optarg : String)
  | h
  | V
  | colon
  | other
deriving DecidableEq, Repr

/-- The `errmsg` reports of ubiattach.c, by call site:
`badDevn s` = `bad UBI device number: "s"`,
`badMtdn s` = `bad MTD device number: "s"`,
`badVidoffs s` = `bad VID header offset: "s"`,
`missingParam` = `parameter is missing`,
`noNode` = `UBI control device name was not specified`,
`multiNode` = `more then one UBI control device specified`,
`noMtdn` = `MTD device number was not specified`. -/
inductive ErrKind where
  | badDevn (s : String)
  | badMtdn (s : String)
  | badVidoffs (s : String)
  | missingParam
  | noNode
  | multiNode
  | noMtdn
deriving DecidableEq, Repr

/-- Outcome of `parse_opt`: normal return 0 with the parsed arguments,
return -1 after an `errmsg` report, or process termination via `exit`. -/
inductive ParseResult where
  | ok (a : Args)
  | err (k : ErrKind)
  | exited (code : Int)
deriving DecidableEq, Repr

/-- The `while (1)` / `switch (key)` loop of `parse_opt`, threading the
`myargs` state through the option events. -/
def parseLoop : List OptEv → Args → ParseResult
  | [], a => .ok a
  | .d s :: rest, a =>
    let r := strtoul0 s.data
    let v := wrap32 r.1
    if r.2 ≠ s.data.length ∨ r.2 = 0 ∨ v < 0 then .err (.badDevn s)
    else parseLoop rest { a with devn := v }
  | .m s :: rest, a =>
    let r := strtoul0 s.data
    let v := wrap32 r.1
    if r.2 ≠ s.data.length ∨ r.2 = 0 ∨ v < 0 then .err (.badMtdn s)
    else parseLoop rest { a with mtdn := v }
  | .o s :: rest, a =>
    let r := strtoul0 s.data
    let v := wrap32 r.1
    if r.2 ≠ s.data.length ∨ r.2 = 0 ∨ v ≤ 0 then .err (.badVidoffs s)
    else parseLoop rest { a with vidoffs := v }
  | .h :: _, _ => .exited 0
  | .V :: _, _ => .exited 0
  | .colon :: _, _ => .err .missingParam
  | .other :: _, _ => .exited (-1)

/-- `parse_opt`: run the option loop, then the post-loop checks —
`optind == argc` (no non-option argument), `optind != argc - 1` (more than
one), and `myargs.mtdn == -1` (`-m` never supplied) — and finally record the
control-device node name. -/
def parse_opt (evs : List OptEv) (nonOpts : List String) : ParseResult :=
  match parseLoop evs myargsInit with
  | .ok a =>
    if nonOpts.length = 0 then .err .noNode
    else if nonOpts.length ≠ 1 then .err .multiNode
    else if a.mtdn = -1 then .err .noMtdn
    else .ok { a with node := nonOpts.head? }
  | r => r

/-- `struct ubi_info` — only the field ubiattach.c reads. -/
structure UbiInfo where
  ctrl_major : Int
deriving DecidableEq, Repr

/-- `struct ubi_dev_info` — the fields ubiattach.c reads. -/
structure UbiDevInfo where
  dev_num : Int
  total_lebs : Int
  total_bytes : Int
  avail_lebs : Int
  avail_bytes : Int
  leb_size : Int
deriving DecidableEq, Repr

/-- `struct ubi_attach_request` — the fields ubiattach.c writes. -/
structure AttachRequest where
  dev_num : Int
  mtd_num : Int
  vid_hdr_offset : Int
deriving DecidableEq, Repr

/-- The libubi control interface, modelled as an opaque external
environment: which calls succeed, and with what results.  `attach` receives
the node name and the request, and on success returns the value of
`req.dev_num` after the call (ubi_attach_mtd may fill in an auto-assigned
device number).  `get_dev_info1` is a function of the requested device
number. -/
structure LibubiEnv where
  open_ok : Bool
  get_info : Option UbiInfo
  attach : String → AttachRequest → Option Int
  get_dev_info1 : Int → Option UbiDevInfo

/-- Externally visible events of one run of `main`: libubi calls, `errmsg`
reports, and the output statements of the success path.  `printBytes n b`
is `ubiutils_print_bytes(n, b)`; `printHead`, `printAvail`, `printLebSize`
and `printNewline` are the four `printf` statements, carrying the values
they format. -/
inductive Ev where
  | errParse (k : ErrKind)
  | callOpen
  | errOpen
  | callGetInfo
  | errGetInfo
  | errNotSupported
  | callAttach (node : String) (req : AttachRequest)
  | errAttach (mtdn : Int)
  | callGetDevInfo (devn : Int)
  | errGetDevInfo
  | printHead (dev_num : Int) (total_lebs : Int)
  | printBytes (bytes : Int) (bracket : Int)
  | printAvail (avail_lebs : Int)
  | printLebSize
  | printNewline
  | callClose
deriving DecidableEq, Repr

/-- The attach request `main` builds from the parsed arguments
(`req.dev_num = myargs.devn`, `req.mtd_num = myargs.mtdn`,
`req.vid_hdr_offset = myargs.vidoffs`). -/
def reqOf (a : Args) : AttachRequest :=
  { dev_num := a.devn, mtd_num := a.mtdn, vid_hdr_offset := a.vidoffs }

/-- `main` of ubiattach.c: the process exit status together with the event
trace.  `exit(code)` inside `parse_opt` gives `(code, [])`; a `return -1`
after `errmsg` in `parse_opt` gives `(-1, [errParse k])`. -/
def mainRun (env : LibubiEnv) (evs : List OptEv) (nonOpts : List String) :
    Int × List Ev :=
  match parse_opt evs nonOpts with
  | .err k => (-1, [.errParse k])
  | .exited code => (code, [])
  | .ok a =>
    if env.open_ok = false then (-1, [.callOpen, .errOpen])
    else
      match env.get_info with
      | none => (-1, [.callOpen, .callGetInfo, .errGetInfo, .callClose])
      | some info =>
        if info.ctrl_major = -1 then
          (-1, [.callOpen, .callGetInfo, .errNotSupported, .callClose])
        else
          let req : AttachRequest := reqOf a
          let node := a.node.getD ""
          match env.attach node req with
          | none =>
            (-1, [.callOpen, .callGetInfo, .callAttach node req,
                  .errAttach a.mtdn, .callClose])
          | some d =>
            match env.get_dev_info1 d with
            | none =>
              (-1, [.callOpen, .callGetInfo, .callAttach node req,
                    .callGetDevInfo d, .errGetDevInfo, .callClose])
            | some di =>
              (0, [.callOpen, .callGetInfo, .callAttach node req,
                   .callGetDevInfo d,
                   .printHead di.dev_num di.total_lebs,
                   .printBytes di.total_bytes 0,
                   .printAvail di.avail_lebs,
                   .printBytes di.avail_bytes 0,
                   .printLebSize,
                   .printBytes di.leb_size 1,
                   .printNewline,
                   .callClose])

/-- The event trace of the fully successful run. -/
def successTrace (node : String) (req : AttachRequest) (d : Int)
    (di : UbiDevInfo) : List Ev :=
  [.callOpen, .callGetInfo, .callAttach node req, .callGetDevInfo d,
   .printHead di.dev_num di.total_lebs, .printBytes di.total_bytes 0,
   .printAvail di.avail_lebs, .printBytes di.avail_bytes 0,
   .printLebSize, .printBytes di.leb_size 1, .printNewline, .callClose]

/-- Is this event the `ubi_attach_mtd` call? -/
def isAttach : Ev → Bool
  | .callAttach _ _ => true
  | _ => false

/-- Is this event the `libubi_close` call? -/
def isClose : Ev → Bool
  | .callClose => true
  | _ => false

/-- Is this event a libubi call? -/
def isLibCall : Ev → Bool
  | .callOpen => true
  | .callGetInfo => true
  | .callAttach _ _ => true
  | .callGetDevInfo _ => true
  | .callClose => true
  | _ => false

/-- Is this event an output statement of the success path? -/
def isOutput : Ev → Bool
  | .printHead _ _ => true
  | .printBytes _ _ => true
  | .printAvail _ => true
  | .printLebSize => true
  | .printNewline => true
  | _ => false

/-- Is this option event a `-d`/`--devn` occurrence? -/
def isDOpt : OptEv → Bool
  | .d _ => true
  | _ => false

/-- Is this option event a `-m`/`--mtdn` occurrence? -/
def isMOpt : OptEv → Bool
  | .m _ => true
  | _ => false

/-- Is this option event a `-o`/`--vid-hdr-offset` occurrence? -/
def isOOpt : OptEv → Bool
  | .o _ => true
  | _ => false

/-- Does this option event make the loop call `exit` (`-h`, `-V`, or the
`default` branch for an unrecognised key)? -/
def isExitOpt : OptEv → Bool
  | .h => true
  | .V => true
  | .other => true
  | _ => false

/-- Concrete device info used in witness runs. -/
def diW : UbiDevInfo :=
  { dev_num := 3, total_lebs := 1024, total_bytes := 134217728,
    avail_lebs := 1000, avail_bytes := 131072000, leb_size := 131072 }

/-- Environment in which every libubi call succeeds. -/
def envOk : LibubiEnv :=
  { open_ok := true, get_info := some { ctrl_major := 10 },
    attach := fun _ _ => some 3, get_dev_info1 := fun _ => some diW }

/-- Environment in which `ubi_attach_mtd` fails. -/
def envAttachFail : LibubiEnv :=
  { open_ok := true, get_info := some { ctrl_major := 10 },
    attach := fun _ _ => none, get_dev_info1 := fun _ => none }

/-- Environment whose kernel lacks the attach/detach feature
(`ctrl_major = -1`). -/
def envNoSup : LibubiEnv :=
  { open_ok := true, get_info := some { ctrl_major := -1 },
    attach := fun _ _ => some 3, get_dev_info1 := fun _ => some diW }

/-- Environment in which the library auto-assigns device number 7 and
reports device info for whatever number is queried. -/
def envAuto : LibubiEnv :=
  { open_ok := true, get_info := some { ctrl_major := 10 },
    attach := fun _ _ => some 7,
    get_dev_info1 := fun n =>
      some { dev_num := n, total_lebs := 512, total_bytes := 67108864,
             avail_lebs := 500, avail_bytes := 65536000, leb_size := 131072 } }

/-- The arguments parsed from `ubiattach /dev/ubi_ctrl -m 5`. -/
def argsW : Args :=
  { devn := -1, mtdn := 5, vidoffs := 0, node := some "/dev/ubi_ctrl" }

/-- A successful `parse_opt` means the option loop returned normally and
only the `node` field was filled in afterwards. -/
theorem parse_opt_ok_elim (evs : List OptEv) (nonOpts : List String) (a : Args)
    (hp : parse_opt evs nonOpts = .ok a) :
    ∃ b, parseLoop evs myargsInit = .ok b ∧
      a = { b with node := nonOpts.head? } := by
  unfold parse_opt at hp
  cases hl : parseLoop evs myargsInit with
  | ok b =>
    rw [hl] at hp
    dsimp only at hp
    refine ⟨b, rfl, ?_⟩
    split at hp
    · simp at hp
    · split at hp
      · simp at hp
      · split at hp
        · simp at hp
        · injection hp with h
          exact h.symm
  | err k => rw [hl] at hp; simp at hp
  | exited c => rw [hl] at hp; simp at hp

/-- The option loop leaves `devn` untouched when no `-d` event occurs. -/
theorem parseLoop_no_d_devn : ∀ (evs : List OptEv) (b a : Args),
    evs.all (fun e => !isDOpt e) = true → parseLoop evs b = .ok a →
      a.devn = b.devn
  | [], b, a, _, hp => by
    simp only [parseLoop] at hp
    injection hp with h
    rw [← h]
  | .d s :: _, _, _, hnd, _ => by simp [isDOpt] at hnd
  | .m s :: rest, b, a, hnd, hp => by
    simp only [List.all_cons, Bool.and_eq_true] at hnd
    simp only [parseLoop] at hp
    split at hp
    · simp at hp
    · have hr := parseLoop_no_d_devn rest _ a hnd.2 hp
      exact hr
  | .o s :: rest, b, a, hnd, hp => by
    simp only [List.all_cons, Bool.and_eq_true] at hnd
    simp only [parseLoop] at hp
    split at hp
    · simp at hp
    · have hr := parseLoop_no_d_devn rest _ a hnd.2 hp
      exact hr
  | .h :: _, _, _, _, hp => by simp only [parseLoop] at hp; simp at hp
  | .V :: _, _, _, _, hp => by simp only [parseLoop] at hp; simp at hp
  | .colon :: _, _, _, _, hp => by simp only [parseLoop] at hp; simp at hp
  | .other :: _, _, _, _, hp => by simp only [parseLoop] at hp; simp at hp

/-- The option loop leaves `vidoffs` untouched when no `-o` event occurs. -/
theorem parseLoop_no_o_vidoffs : ∀ (evs : List OptEv) (b a : Args),
    evs.all (fun e => !isOOpt e) = true → parseLoop evs b = .ok a →
      a.vidoffs = b.vidoffs
  | [], b, a, _, hp => by
    simp only [parseLoop] at hp
    injection hp with h
    rw [← h]
  | .o s :: _, _, _, hnd, _ => by simp [isOOpt] at hnd
  | .d s :: rest, b, a, hnd, hp => by
    simp only [List.all_cons, Bool.and_eq_true] at hnd
    simp only [parseLoop] at hp
    split at hp
    · simp at hp
    · have hr := parseLoop_no_o_vidoffs rest _ a hnd.2 hp
      exact hr
  | .m s :: rest, b, a, hnd, hp => by
    simp only [List.all_cons, Bool.and_eq_true] at hnd
    simp only [parseLoop] at hp
    split at hp
    · simp at hp
    · have hr := parseLoop_no_o_vidoffs rest _ a hnd.2 hp
      exact hr
  | .h :: _, _, _, _, hp => by simp only [parseLoop] at hp; simp at hp
  | .V :: _, _, _, _, hp => by simp only [parseLoop] at hp; simp at hp
  | .colon :: _, _, _, _, hp => by simp only [parseLoop] at hp; simp at hp
  | .other :: _, _, _, _, hp => by simp only [parseLoop] at hp; simp at hp

/-- The option loop leaves `mtdn` untouched when no `-m` event occurs. -/
theorem parseLoop_no_m_mtdn : ∀ (evs : List OptEv) (b a : Args),
    evs.all (fun e => !isMOpt e) = true → parseLoop evs b = .ok a →
      a.mtdn = b.mtdn
  | [], b, a, _, hp => by
    simp only [parseLoop] at hp
    injection hp with h
    rw [← h]
  | .m s :: _, _, _, hnd, _ => by simp [isMOpt] at hnd
  | .d s :: rest, b, a, hnd, hp => by
    simp only [List.all_cons, Bool.and_eq_true] at hnd
    simp only [parseLoop] at hp
    split at hp
    · simp at hp
    · have hr := parseLoop_no_m_mtdn rest _ a hnd.2 hp
      exact hr
  | .o s :: rest, b, a, hnd, hp => by
    simp only [List.all_cons, Bool.and_eq_true] at hnd
    simp only [parseLoop] at hp
    split at hp
    · simp at hp
    · have hr := parseLoop_no_m_mtdn rest _ a hnd.2 hp
      exact hr
  | .h :: _, _, _, _, hp => by simp only [parseLoop] at hp; simp at hp
  | .V :: _, _, _, _, hp => by simp only [parseLoop] at hp; simp at hp
  | .colon :: _, _, _, _, hp => by simp only [parseLoop] at hp; simp at hp
  | .other :: _, _, _, _, hp => by simp only [parseLoop] at hp; simp at hp

/-- Without `-h`, `-V`, or an unrecognised option, the loop never calls
`exit`. -/
theorem parseLoop_not_exited : ∀ (evs : List OptEv) (b : Args) (c : Int),
    evs.all (fun e => !isExitOpt e) = true → parseLoop evs b ≠ .exited c
  | [], b, c, _, hp => by simp only [parseLoop] at hp; simp at hp
  | .h :: _, _, _, hne, _ => by simp [isExitOpt] at hne
  | .V :: _, _, _, hne, _ => by simp [isExitOpt] at hne
  | .other :: _, _, _, hne, _ => by simp [isExitOpt] at hne
  | .colon :: _, _, _, _, hp => by simp only [parseLoop] at hp; simp at hp
  | .d s :: rest, b, c, hne, hp => by
    simp only [List.all_cons, Bool.and_eq_true] at hne
    simp only [parseLoop] at hp
    split at hp
    · simp at hp
    · exact parseLoop_not_exited rest _ c hne.2 hp
  | .m s :: rest, b, c, hne, hp => by
    simp only [List.all_cons, Bool.and_eq_true] at hne
    simp only [parseLoop] at hp
    split at hp
    · simp at hp
    · exact parseLoop_not_exited rest _ c hne.2 hp
  | .o s :: rest, b, c, hne, hp => by
    simp only [List.all_cons, Bool.and_eq_true] at hne
    simp only [parseLoop] at hp
    split at hp
    · simp at hp
    · exact parseLoop_not_exited rest _ c hne.2 hp

/-- Every run of `main` issues the `ubi_attach_mtd` call at most once. -/
theorem mainRun_attach_le_one (env : LibubiEnv) (evs : List OptEv)
    (nonOpts : List String) :
    ((mainRun env evs nonOpts).2.countP isAttach) ≤ 1 := by
  unfold mainRun
  cases parse_opt evs nonOpts with
  | err k => simp [List.countP_cons, List.countP_nil, isAttach]
  | exited c => simp
  | ok a =>
    cases ho : env.open_ok with
    | false => simp [List.countP_cons, List.countP_nil, isAttach]
    | true =>
      cases hi : env.get_info with
      | none => simp [List.countP_cons, List.countP_nil, isAttach]
      | some info =>
        by_cases hc : info.ctrl_major = -1
        · simp [hc, List.countP_cons, List.countP_nil, isAttach]
        · cases hatt : env.attach (a.node.getD "") (reqOf a) with
          | none => simp [hc, hatt, List.countP_cons, List.countP_nil, isAttach]
          | some d =>
            cases hdev : env.get_dev_info1 d with
            | none =>
              simp [hc, hatt, hdev, List.countP_cons, List.countP_nil, isAttach]
            | some di =>
              simp [hc, hatt, hdev, List.countP_cons, List.countP_nil, isAttach]

/-- C1: for every invocation the program behaves as the linear sequence —
parse the options, open libubi, query subsystem info, issue one attach
request, query the new device's info, print it, return 0.  When every step
succeeds, the trace is exactly this sequence and the exit status is 0; and
no run issues `ubi_attach_mtd` more than once. -/
theorem c1_linear_sequence (env : LibubiEnv) (evs : List OptEv)
    (nonOpts : List String) (a : Args) (info : UbiInfo) (d : Int)
    (di : UbiDevInfo)
    (hp : parse_opt evs nonOpts = .ok a)
    (ho : env.open_ok = true)
    (hi : env.get_info = some info)
    (hc : info.ctrl_major ≠ -1)
    (ha : env.attach (a.node.getD "") (reqOf a) = some d)
    (hd : env.get_dev_info1 d = some di) :
    mainRun env evs nonOpts = (0, successTrace (a.node.getD "") (reqOf a) d di)
    ∧ ∀ env2 evs2 nonOpts2,
        ((mainRun env2 evs2 nonOpts2).2.countP isAttach) ≤ 1 := by
  refine ⟨?_, fun env2 evs2 nonOpts2 => mainRun_attach_le_one env2 evs2 nonOpts2⟩
  simp [mainRun, hp, ho, hi, hc, ha, hd, successTrace]

/-- Witness for C1: `ubiattach /dev/ubi_ctrl -m 5` in an environment where
every libubi call succeeds runs the full sequence and exits 0. -/
theorem c1_linear_sequence_witness :
    mainRun envOk [OptEv.m "5"] ["/dev/ubi_ctrl"] =
      (0, successTrace "/dev/ubi_ctrl" (reqOf argsW) 3 diW) :=
  (c1_linear_sequence envOk [OptEv.m "5"] ["/dev/ubi_ctrl"] argsW
      { ctrl_major := 10 } 3 diW rfl rfl rfl (by decide) rfl rfl).1

/-- C2: whenever an external call fails — `libubi_open` returns NULL, or
`ubi_get_info`, `ubi_attach_mtd` or `ubi_get_dev_info1` fails — the program
reports an error identifying the failed step, performs none of the
subsequent steps, and exits with status -1. -/
theorem c2_error_propagation (env : LibubiEnv) (evs : List OptEv)
    (nonOpts : List String) (a : Args)
    (hp : parse_opt evs nonOpts = .ok a) :
    (env.open_ok = false →
       mainRun env evs nonOpts = (-1, [.callOpen, .errOpen]))
    ∧ (env.open_ok = true → env.get_info = none →
       mainRun env evs nonOpts =
         (-1, [.callOpen, .callGetInfo, .errGetInfo, .callClose]))
    ∧ (∀ info, env.open_ok = true → env.get_info = some info →
       info.ctrl_major ≠ -1 →
       env.attach (a.node.getD "") (reqOf a) = none →
       mainRun env evs nonOpts =
         (-1, [.callOpen, .callGetInfo,
               .callAttach (a.node.getD "") (reqOf a),
               .errAttach a.mtdn, .callClose]))
    ∧ (∀ info d, env.open_ok = true → env.get_info = some info →
       info.ctrl_major ≠ -1 →
       env.attach (a.node.getD "") (reqOf a) = some d →
       env.get_dev_info1 d = none →
       mainRun env evs nonOpts =
         (-1, [.callOpen, .callGetInfo,
               .callAttach (a.node.getD "") (reqOf a),
               .callGetDevInfo d, .errGetDevInfo, .callClose])) := by
  refine ⟨fun ho => ?_, fun ho hi => ?_, fun info ho hi hc hatt => ?_,
          fun info d ho hi hc hatt hdev => ?_⟩
  · simp [mainRun, hp, ho]
  · simp [mainRun, hp, ho, hi]
  · simp [mainRun, hp, ho, hi, hc, hatt]
  · simp [mainRun, hp, ho, hi, hc, hatt, hdev]

/-- Witness for C2: when `ubi_attach_mtd` fails, the run stops after the
attach call, reports the failure, closes the handle and exits -1. -/
theorem c2_error_propagation_witness :
    mainRun envAttachFail [OptEv.m "5"] ["/dev/ubi_ctrl"] =
      (-1, [Ev.callOpen, Ev.callGetInfo,
            Ev.callAttach "/dev/ubi_ctrl" (reqOf argsW),
            Ev.errAttach 5, Ev.callClose]) :=
  (c2_error_propagation envAttachFail [OptEv.m "5"] ["/dev/ubi_ctrl"] argsW
      rfl).2.2.1 { ctrl_major := 10 } rfl rfl (by decide) rfl

/-- C3: the attach request is a direct pass-through of the parsed
arguments (`dev_num` from `-d`, defaulting to `UBI_DEV_NUM_AUTO`;
`mtd_num` from `-m`; `vid_hdr_offset` from `-o`, defaulting to 0). -/
theorem c3_request_passthrough (env : LibubiEnv) (evs : List OptEv)
    (nonOpts : List String) (a : Args) (node : String) (req : AttachRequest)
    (hp : parse_opt evs nonOpts = .ok a)
    (hmem : Ev.callAttach node req ∈ (mainRun env evs nonOpts).2) :
    req = reqOf a
    ∧ (evs.all (fun e => !isDOpt e) = true → a.devn = UBI_DEV_NUM_AUTO)
    ∧ (evs.all (fun e => !isOOpt e) = true → a.vidoffs = 0) := by
  refine ⟨?_, fun hnd => ?_, fun hno => ?_⟩
  · unfold mainRun at hmem
    rw [hp] at hmem
    dsimp only at hmem
    by_cases ho : env.open_ok = false
    · rw [if_pos ho] at hmem
      simp at hmem
    · rw [if_neg ho] at hmem
      cases hi : env.get_info with
      | none => simp [hi] at hmem
      | some info =>
        by_cases hc : info.ctrl_major = -1
        · simp [hi, hc] at hmem
        · cases hatt : env.attach (a.node.getD "") (reqOf a) with
          | none =>
            simp [hi, hc, hatt] at hmem
            exact hmem.2
          | some d =>
            cases hdev : env.get_dev_info1 d with
            | none =>
              simp [hi, hc, hatt, hdev] at hmem
              exact hmem.2
            | some di =>
              simp [hi, hc, hatt, hdev] at hmem
              exact hmem.2
  · obtain ⟨b, hb, hab⟩ := parse_opt_ok_elim evs nonOpts a hp
    have h1 := parseLoop_no_d_devn evs myargsInit b hnd hb
    rw [hab]
    exact h1
  · obtain ⟨b, hb, hab⟩ := parse_opt_ok_elim evs nonOpts a hp
    have h1 := parseLoop_no_o_vidoffs evs myargsInit b hno hb
    rw [hab]
    exact h1

/-- Witness for C3: in the run `ubiattach /dev/ubi_ctrl -m 5`, the request
passed to `ubi_attach_mtd` equals the parsed arguments, and the defaults
hold since `-d` and `-o` were not given. -/
theorem c3_request_passthrough_witness :
    reqOf argsW = reqOf argsW ∧ argsW.devn = UBI_DEV_NUM_AUTO ∧
      argsW.vidoffs = 0 := by
  have h := c3_request_passthrough envOk [OptEv.m "5"] ["/dev/ubi_ctrl"]
      argsW "/dev/ubi_ctrl" (reqOf argsW) rfl (by decide)
  exact ⟨h.1, h.2.1 rfl, h.2.2 rfl⟩

/-- C4: the VID header offset is optional — parsing succeeds without `-o`
and leaves the offset at its default 0 — and a `-o` argument is accepted
exactly when strtoul consumes the entire string, consumed at least one
character, and the resulting value is strictly positive; otherwise the
`bad VID header offset` error is reported. -/
theorem c4_vid_offset (evs : List OptEv) (nonOpts : List String) (a b : Args)
    (s : String) :
    (parse_opt evs nonOpts = .ok a → evs.all (fun e => !isOOpt e) = true →
       a.vidoffs = 0)
    ∧ (parseLoop [OptEv.o s] b = .err (.badVidoffs s) ↔
       ¬ ((strtoul0 s.data).2 = s.data.length ∧ (strtoul0 s.data).2 ≠ 0 ∧
            0 < wrap32 (strtoul0 s.data).1))
    ∧ ((strtoul0 s.data).2 = s.data.length → (strtoul0 s.data).2 ≠ 0 →
       0 < wrap32 (strtoul0 s.data).1 →
       parseLoop [OptEv.o s] b =
         .ok { b with vidoffs := wrap32 (strtoul0 s.data).1 }) := by
  refine ⟨fun hp hno => ?_, ⟨fun herr => ?_, fun hnot => ?_⟩, fun h1 h2 h3 => ?_⟩
  · obtain ⟨b0, hb, hab⟩ := parse_opt_ok_elim evs nonOpts a hp
    have hv := parseLoop_no_o_vidoffs evs myargsInit b0 hno hb
    rw [hab]
    exact hv
  · simp only [parseLoop] at herr
    split at herr
    · next hcond =>
      push_neg
      intro hlen hne
      rcases hcond with h | h | h
      · exact absurd hlen h
      · exact absurd h hne
      · exact h
    · simp [parseLoop] at herr
  · simp only [parseLoop]
    split
    · rfl
    · next hcond =>
      push_neg at hcond
      exact absurd ⟨hcond.1, hcond.2.1, hcond.2.2⟩ hnot
  · simp only [parseLoop]
    rw [if_neg (by push_neg; exact ⟨h1, h2, h3⟩)]

/-- Witness for C4: without `-o` the offset stays 0; `-o 0` is rejected
with the bad-offset error; `-o 512` stores 512. -/
theorem c4_vid_offset_witness :
    argsW.vidoffs = 0
    ∧ parseLoop [OptEv.o "0"] myargsInit = .err (.badVidoffs "0")
    ∧ parseLoop [OptEv.o "512"] myargsInit =
        .ok { myargsInit with vidoffs := 512 } := by
  refine ⟨(c4_vid_offset [OptEv.m "5"] ["/dev/ubi_ctrl"] argsW myargsInit
      "0").1 rfl rfl, ?_, ?_⟩
  · exact (c4_vid_offset [OptEv.m "5"] ["/dev/ubi_ctrl"] argsW myargsInit
      "0").2.1.mpr (by decide)
  · exact (c4_vid_offset [OptEv.m "5"] ["/dev/ubi_ctrl"] argsW myargsInit
      "512").2.2 (by decide) (by decide) (by decide)

/-- C5: a `-d` or `-m` argument is accepted exactly when strtoul consumes
the entire string, consumed at least one character, and the resulting value
is non-negative; otherwise the corresponding bad-device-number error
(`bad UBI device number` for `-d`, `bad MTD device number` for `-m`)
is reported. -/
theorem c5_device_numbers (b : Args) (s : String) :
    (parseLoop [OptEv.d s] b = .err (.badDevn s) ↔
       ¬ ((strtoul0 s.data).2 = s.data.length ∧ (strtoul0 s.data).2 ≠ 0 ∧
            0 ≤ wrap32 (strtoul0 s.data).1))
    ∧ ((strtoul0 s.data).2 = s.data.length → (strtoul0 s.data).2 ≠ 0 →
       0 ≤ wrap32 (strtoul0 s.data).1 →
       parseLoop [OptEv.d s] b =
         .ok { b with devn := wrap32 (strtoul0 s.data).1 })
    ∧ (parseLoop [OptEv.m s] b = .err (.badMtdn s) ↔
       ¬ ((strtoul0 s.data).2 = s.data.length ∧ (strtoul0 s.data).2 ≠ 0 ∧
            0 ≤ wrap32 (strtoul0 s.data).1))
    ∧ ((strtoul0 s.data).2 = s.data.length → (strtoul0 s.data).2 ≠ 0 →
       0 ≤ wrap32 (strtoul0 s.data).1 →
       parseLoop [OptEv.m s] b =
         .ok { b with mtdn := wrap32 (strtoul0 s.data).1 }) := by
  refine ⟨⟨fun herr => ?_, fun hnot => ?_⟩, fun h1 h2 h3 => ?_,
          ⟨fun herr => ?_, fun hnot => ?_⟩, fun h1 h2 h3 => ?_⟩
  · simp only [parseLoop] at herr
    split at herr
    · next hcond =>
      push_neg
      intro hlen hne
      rcases hcond with h | h | h
      · exact absurd hlen h
      · exact absurd h hne
      · exact h
    · simp [parseLoop] at herr
  · simp only [parseLoop]
    split
    · rfl
    · next hcond =>
      push_neg at hcond
      exact absurd ⟨hcond.1, hcond.2.1, hcond.2.2⟩ hnot
  · simp only [parseLoop]
    rw [if_neg (by push_neg; exact ⟨h1, h2, h3⟩)]
  · simp only [parseLoop] at herr
    split at herr
    · next hcond =>
      push_neg
      intro hlen hne
      rcases hcond with h | h | h
      · exact absurd hlen h
      · exact absurd h hne
      · exact h
    · simp [parseLoop] at herr
  · simp only [parseLoop]
    split
    · rfl
    · next hcond =>
      push_neg at hcond
      exact absurd ⟨hcond.1, hcond.2.1, hcond.2.2⟩ hnot
  · simp only [parseLoop]
    rw [if_neg (by push_neg; exact ⟨h1, h2, h3⟩)]

/-- Witness for C5: `-d abc` is rejected with the bad-device-number error;
`-m 7` is accepted and stores 7. -/
theorem c5_device_numbers_witness :
    parseLoop [OptEv.d "abc"] myargsInit = .err (.badDevn "abc")
    ∧ parseLoop [OptEv.m "7"] myargsInit = .ok { myargsInit with mtdn := 7 } := by
  refine ⟨(c5_device_numbers myargsInit "abc").1.mpr (by decide), ?_⟩
  exact (c5_device_numbers myargsInit "7").2.2.2 (by decide) (by decide)
    (by decide)

/-- C6: on a fully successful run the program prints the new device's
number and total LEB count, its total byte size through the byte formatter
`ubiutils_print_bytes`, the available LEB count, the available byte size
through the formatter, and the LEB size through the formatter. -/
theorem c6_success_output (env : LibubiEnv) (evs : List OptEv)
    (nonOpts : List String) (a : Args) (info : UbiInfo) (d : Int)
    (di : UbiDevInfo)
    (hp : parse_opt evs nonOpts = .ok a)
    (ho : env.open_ok = true)
    (hi : env.get_info = some info)
    (hc : info.ctrl_major ≠ -1)
    (ha : env.attach (a.node.getD "") (reqOf a) = some d)
    (hd : env.get_dev_info1 d = some di) :
    (mainRun env evs nonOpts).2.filter isOutput =
      [.printHead di.dev_num di.total_lebs, .printBytes di.total_bytes 0,
       .printAvail di.avail_lebs, .printBytes di.avail_bytes 0,
       .printLebSize, .printBytes di.leb_size 1, .printNewline] := by
  simp [mainRun, hp, ho, hi, hc, ha, hd, isOutput, List.filter]

/-- Witness for C6: the output of the successful witness run. -/
theorem c6_success_output_witness :
    (mainRun envOk [OptEv.m "5"] ["/dev/ubi_ctrl"]).2.filter isOutput =
      [Ev.printHead 3 1024, Ev.printBytes 134217728 0,
       Ev.printAvail 1000, Ev.printBytes 131072000 0,
       Ev.printLebSize, Ev.printBytes 131072 1, Ev.printNewline] :=
  c6_success_output envOk [OptEv.m "5"] ["/dev/ubi_ctrl"] argsW
    { ctrl_major := 10 } 3 diW rfl rfl rfl (by decide) rfl rfl

/-- C7: after a successful attach, `ubi_get_dev_info1` is queried for
`req.dev_num` as left by `ubi_attach_mtd` (possibly auto-assigned), it is
the only device-info query of the run, and the device number printed is the
one the query returned (`dev_info.dev_num`). -/
theorem c7_query_device (env : LibubiEnv) (evs : List OptEv)
    (nonOpts : List String) (a : Args) (info : UbiInfo) (d : Int)
    (di : UbiDevInfo)
    (hp : parse_opt evs nonOpts = .ok a)
    (ho : env.open_ok = true)
    (hi : env.get_info = some info)
    (hc : info.ctrl_major ≠ -1)
    (ha : env.attach (a.node.getD "") (reqOf a) = some d)
    (hd : env.get_dev_info1 d = some di) :
    Ev.callGetDevInfo d ∈ (mainRun env evs nonOpts).2
    ∧ Ev.printHead di.dev_num di.total_lebs ∈ (mainRun env evs nonOpts).2
    ∧ ∀ x, Ev.callGetDevInfo x ∈ (mainRun env evs nonOpts).2 → x = d := by
  have hrun : mainRun env evs nonOpts =
      (0, successTrace (a.node.getD "") (reqOf a) d di) := by
    simp [mainRun, hp, ho, hi, hc, ha, hd, successTrace]
  rw [hrun]
  refine ⟨by simp [successTrace], by simp [successTrace], fun x hx => ?_⟩
  simp [successTrace] at hx
  exact hx

/-- Witness for C7: with `-d` omitted (`dev_num = UBI_DEV_NUM_AUTO = -1` in
the request), the library assigns device number 7; the query and the
printed number are both 7, not the command-line value. -/
theorem c7_query_device_witness :
    Ev.callGetDevInfo 7 ∈ (mainRun envAuto [OptEv.m "5"] ["/dev/ubi_ctrl"]).2
    ∧ Ev.printHead 7 512 ∈ (mainRun envAuto [OptEv.m "5"] ["/dev/ubi_ctrl"]).2 := by
  have h := c7_query_device envAuto [OptEv.m "5"] ["/dev/ubi_ctrl"] argsW
      { ctrl_major := 10 } 7
      { dev_num := 7, total_lebs := 512, total_bytes := 67108864,
        avail_lebs := 500, avail_bytes := 65536000, leb_size := 131072 }
      rfl rfl rfl (by decide) rfl rfl
  exact ⟨h.1, h.2.1⟩

/-- C8: even when `ubi_get_info` succeeds, a control-device major number of
-1 makes the program report that MTD attach/detach is unsupported and exit
-1 without ever issuing the attach request. -/
theorem c8_unsupported (env : LibubiEnv) (evs : List OptEv)
    (nonOpts : List String) (a : Args) (info : UbiInfo)
    (hp : parse_opt evs nonOpts = .ok a)
    (ho : env.open_ok = true)
    (hi : env.get_info = some info)
    (hc : info.ctrl_major = -1) :
    mainRun env evs nonOpts =
      (-1, [.callOpen, .callGetInfo, .errNotSupported, .callClose])
    ∧ ((mainRun env evs nonOpts).2.countP isAttach) = 0 := by
  have hrun : mainRun env evs nonOpts =
      (-1, [.callOpen, .callGetInfo, .errNotSupported, .callClose]) := by
    simp [mainRun, hp, ho, hi, hc]
  refine ⟨hrun, ?_⟩
  rw [hrun]
  simp [List.countP_cons, List.countP_nil, isAttach]

/-- Witness for C8: a kernel without the feature makes the run stop after
`ubi_get_info` and exit -1. -/
theorem c8_unsupported_witness :
    mainRun envNoSup [OptEv.m "5"] ["/dev/ubi_ctrl"] =
      (-1, [Ev.callOpen, Ev.callGetInfo, Ev.errNotSupported, Ev.callClose]) :=
  (c8_unsupported envNoSup [OptEv.m "5"] ["/dev/ubi_ctrl"] argsW
    { ctrl_major := -1 } rfl rfl rfl rfl).1

/-- C9 as stated is false on the code: with `-h` on the command line there
are zero non-option arguments and no `-m`, yet `parse_opt` never reports an
error or returns -1 — it prints the help text and calls `exit(0)`, so the
process exits with status 0.  Likewise an unrecognised option makes
`parse_opt` call `exit(-1)` instead of returning -1. -/
theorem c9_exit_counterexample :
    parse_opt [OptEv.h] [] = .exited 0
    ∧ (mainRun envOk [OptEv.h] []).1 = 0
    ∧ parse_opt [OptEv.other] [] = .exited (-1) := by
  refine ⟨rfl, rfl, rfl⟩

/-- C9 amended: provided the option loop does not exit first (no `-h`, no
`-V`, no unrecognised option), if zero or more than one non-option
arguments are given, or `-m` is absent, then `parse_opt` reports an error
and returns -1, and `main` exits with -1 without making any libubi call. -/
theorem c9_required_arguments (env : LibubiEnv) (evs : List OptEv)
    (nonOpts : List String)
    (hne : evs.all (fun e => !isExitOpt e) = true)
    (hcond : nonOpts.length = 0 ∨ 2 ≤ nonOpts.length ∨
             evs.all (fun e => !isMOpt e) = true) :
    ∃ k, parse_opt evs nonOpts = .err k ∧
      mainRun env evs nonOpts = (-1, [.errParse k]) := by
  have hparse : ∃ k, parse_opt evs nonOpts = .err k := by
    cases hl : parseLoop evs myargsInit with
    | exited c => exact absurd hl (parseLoop_not_exited evs myargsInit c hne)
    | err k => exact ⟨k, by simp [parse_opt, hl]⟩
    | ok b =>
      by_cases h0 : nonOpts.length = 0
      · exact ⟨.noNode, by simp [parse_opt, hl, h0]⟩
      · by_cases h1 : nonOpts.length = 1
        · have hm : b.mtdn = -1 := by
            rcases hcond with hc0 | hc2 | hcm
            · exact absurd hc0 h0
            · exact absurd hc2 (by omega)
            · exact parseLoop_no_m_mtdn evs myargsInit b hcm hl
          exact ⟨.noMtdn, by simp [parse_opt, hl, h0, h1, hm]⟩
        · exact ⟨.multiNode, by simp [parse_opt, hl, h0, h1]⟩
  obtain ⟨k, hk⟩ := hparse
  exact ⟨k, hk, by simp [mainRun, hk]⟩

/-- Witness for the amended C9: with no arguments at all, `parse_opt`
reports the missing-control-device error and `main` exits -1 with no libubi
call. -/
theorem c9_required_arguments_witness :
    mainRun envOk [] [] = (-1, [Ev.errParse ErrKind.noNode]) := by
  obtain ⟨k, hk, hrun⟩ := c9_required_arguments envOk [] [] rfl (Or.inl rfl)
  have h0 : parse_opt ([] : List OptEv) [] = .err .noNode := rfl
  rw [h0] at hk
  injection hk with hk2
  rw [← hk2] at hrun
  exact hrun

/-- C10: whenever `libubi_open` succeeds, `libubi_close` is called exactly
once before `main` returns — on the success path and on every later error
path alike. -/
theorem c10_close_once (env : LibubiEnv) (evs : List OptEv)
    (nonOpts : List String) (a : Args)
    (hp : parse_opt evs nonOpts = .ok a)
    (ho : env.open_ok = true) :
    ((mainRun env evs nonOpts).2.countP isClose) = 1 := by
  unfold mainRun
  rw [hp]
  dsimp only
  rw [if_neg (by simp [ho])]
  cases hi : env.get_info with
  | none => simp [hi, List.countP_cons, List.countP_nil, isClose]
  | some info =>
    by_cases hc : info.ctrl_major = -1
    · simp [hi, hc, List.countP_cons, List.countP_nil, isClose]
    · cases hatt : env.attach (a.node.getD "") (reqOf a) with
      | none => simp [hi, hc, hatt, List.countP_cons, List.countP_nil, isClose]
      | some d =>
        cases hdev : env.get_dev_info1 d with
        | none =>
          simp [hi, hc, hatt, hdev, List.countP_cons, List.countP_nil, isClose]
        | some di =>
          simp [hi, hc, hatt, hdev, List.countP_cons, List.countP_nil, isClose]

/-- Witness for C10: the successful witness run closes the handle exactly
once. -/
theorem c10_close_once_witness :
    ((mainRun envOk [OptEv.m "5"] ["/dev/ubi_ctrl"]).2.countP isClose) = 1 :=
  c10_close_once envOk [OptEv.m "5"] ["/dev/ubi_ctrl"] argsW rfl rfl

end Ubiattach
